import Mathlib

set_option linter.unusedVariables false

/-!
Shallow embedding of the suggestion-lifecycle and vote subsystem of
`src/main.py` (IdentityContraventionBot).

The SQLite tables become Lean lists of records; each Python store accessor
becomes a pure Lean function on those lists; the Discord interaction
handlers (`SuggestionView._handle_upvote` / `_handle_downvote`, the
`approve` / `reject` slash commands, `SuggestionModal.on_submit`, and the
`on_ready` re-attachment query) become functions from the store state and
the platform-supplied inputs to the new store state plus an observable
outcome.  Platform-side conditions that the Python code only observes
(does the configured channel exist, did the message edit succeed, does the
invoking user hold the reviewer role) are passed in as boolean parameters,
since they are external to the storage subsystem being specified.
-/

/-- A row of the `suggestions` table (`init_suggestions_db`, main.py). -/
structure Suggestion where
  suggestion_id : String
  guild_id : Nat
  user_id : Nat
  message_id : Nat
  thread_id : Nat
  title : String
  description : String
  pros : String
  cons : String
  image_url : Option String
  status : String
  created_at : String
  decision_reason : Option String
  decided_anonymously : Bool
deriving Repr, DecidableEq

/-- A row of the `votes` table: PRIMARY KEY (suggestion_id, user_id). -/
structure Vote where
  suggestion_id : String
  user_id : Nat
  vote_type : String
deriving Repr, DecidableEq

/-- A row of `suggestion_guild_settings` (NULL columns become `none`). -/
structure GuildSettings where
  suggestion_channel_id : Option Nat
  reviewer_role_id : Option Nat
  blocked_role_id : Option Nat
deriving Repr, DecidableEq

/-- `get_suggestion`: `SELECT * FROM suggestions WHERE suggestion_id = ?`,
returning the first (by primary-key uniqueness, only) matching row. -/
def get_suggestion (db : List Suggestion) (sid : String) : Option Suggestion :=
  db.find? (fun s => s.suggestion_id == sid)

/-- `update_suggestion_status`: an unconditional
`UPDATE suggestions SET status = ?, decision_reason = ?, decided_anonymously = ?
WHERE suggestion_id = ?`.  Note that the Python function performs no check of
the current status. -/
def update_suggestion_status (db : List Suggestion) (sid : String)
    (status : String) (reason : Option String) (anonymous : Bool) :
    List Suggestion :=
  db.map (fun s =>
    if s.suggestion_id == sid then
      { s with status := status, decision_reason := reason,
               decided_anonymously := anonymous }
    else s)

/-- `save_suggestion`: a plain `INSERT INTO suggestions VALUES (...)`.
A primary-key collision raises `sqlite3.IntegrityError`, modelled as `none`;
on success the new row is appended. -/
def save_suggestion (db : List Suggestion) (row : Suggestion) :
    Option (List Suggestion) :=
  if db.any (fun s => s.suggestion_id == row.suggestion_id) then none
  else some (db ++ [row])

/-- `add_vote`: `INSERT INTO votes VALUES (?, ?, ?)`; returns `false` and
leaves the table unchanged when the (suggestion_id, user_id) primary key
already exists (`sqlite3.IntegrityError` branch), `true` otherwise. -/
def add_vote (votes : List Vote) (sid : String) (uid : Nat) (vt : String) :
    List Vote × Bool :=
  if votes.any (fun v => v.suggestion_id == sid && v.user_id == uid) then
    (votes, false)
  else
    (votes ++ [⟨sid, uid, vt⟩], true)

/-- `remove_vote`: `DELETE FROM votes WHERE suggestion_id = ? AND user_id = ?`
(idempotent: deleting an absent row is not an error). -/
def remove_vote (votes : List Vote) (sid : String) (uid : Nat) : List Vote :=
  votes.filter (fun v => !(v.suggestion_id == sid && v.user_id == uid))

/-- `get_votes`: `SELECT vote_type, COUNT(*) FROM votes WHERE suggestion_id = ?
GROUP BY vote_type`, folded into a dict initialised to
`{'upvote': 0, 'downvote': 0}`.  The grouped result is modelled as one
`(type, count)` pair per distinct `vote_type` value among the rows of the
suggestion; the returned pair is (upvotes, downvotes). -/
def get_votes (votes : List Vote) (sid : String) : Nat × Nat :=
  let rows := votes.filter (fun v => v.suggestion_id == sid)
  let results := (rows.map (fun v => v.vote_type)).dedup.map
    (fun t => (t, rows.countP (fun v => v.vote_type == t)))
  (((results.find? (fun r => r.1 == "upvote")).map (fun r => r.2)).getD 0,
   ((results.find? (fun r => r.1 == "downvote")).map (fun r => r.2)).getD 0)

/-- `get_user_vote`: `SELECT vote_type FROM votes WHERE suggestion_id = ? AND
user_id = ?`, returning the row's `vote_type` or `None`. -/
def get_user_vote (votes : List Vote) (sid : String) (uid : Nat) :
    Option String :=
  (votes.find? (fun v => v.suggestion_id == sid && v.user_id == uid)).map
    (fun v => v.vote_type)

/-- `SuggestionView.update_embed`: re-reads the suggestion and, when it still
exists, re-renders the tally (`get_votes`) into the public embed.  The value
returned is the tally that gets rendered; `none` when the suggestion row is
gone and no edit happens.  The function performs no store writes. -/
def update_embed (db : List Suggestion) (votes : List Vote) (sid : String) :
    Option (Nat × Nat) :=
  match get_suggestion db sid with
  | none => none
  | some _ => some (get_votes votes sid)

/-- Outcome constructors of a vote-button press, mirroring the ephemeral
acknowledgment messages of `_handle_upvote` / `_handle_downvote`:
`notFound` = "Suggestion not found.", `votingClosed` = "Voting is closed for
this suggestion.", `removed` / `switched` / `added` = the three decision-table
results. -/
inductive VoteResult where
  | notFound
  | votingClosed
  | removed
  | switched
  | added
deriving Repr, DecidableEq

/-- Result of a vote-button press: the new `votes` table, the acknowledgment
sent, and the tally rendered by the trailing `update_embed` call (`none` when
the handler returned early and no embed update happened). -/
structure VoteOutcome where
  votes : List Vote
  result : VoteResult
  embed_tally : Option (Nat × Nat)
deriving Repr, DecidableEq

/-- `SuggestionView._handle_upvote` (main.py lines 559-586): guild check,
status check, then the decision table on the voter's current vote. -/
def handle_upvote (db : List Suggestion) (votes : List Vote) (sid : String)
    (guild_id user_id : Nat) : VoteOutcome :=
  match get_suggestion db sid with
  | none => ⟨votes, .notFound, none⟩
  | some s =>
    if s.guild_id ≠ guild_id then ⟨votes, .notFound, none⟩
    else if s.status ≠ "pending" then ⟨votes, .votingClosed, none⟩
    else if get_user_vote votes sid user_id = some "upvote" then
      ⟨remove_vote votes sid user_id, .removed,
       update_embed db (remove_vote votes sid user_id) sid⟩
    else if get_user_vote votes sid user_id = some "downvote" then
      ⟨(add_vote (remove_vote votes sid user_id) sid user_id "upvote").1,
       .switched,
       update_embed db
         (add_vote (remove_vote votes sid user_id) sid user_id "upvote").1 sid⟩
    else
      ⟨(add_vote votes sid user_id "upvote").1, .added,
       update_embed db (add_vote votes sid user_id "upvote").1 sid⟩

/-- `SuggestionView._handle_downvote` (main.py lines 588-615): identical to
the upvote handler with the two vote types swapped. -/
def handle_downvote (db : List Suggestion) (votes : List Vote) (sid : String)
    (guild_id user_id : Nat) : VoteOutcome :=
  match get_suggestion db sid with
  | none => ⟨votes, .notFound, none⟩
  | some s =>
    if s.guild_id ≠ guild_id then ⟨votes, .notFound, none⟩
    else if s.status ≠ "pending" then ⟨votes, .votingClosed, none⟩
    else if get_user_vote votes sid user_id = some "downvote" then
      ⟨remove_vote votes sid user_id, .removed,
       update_embed db (remove_vote votes sid user_id) sid⟩
    else if get_user_vote votes sid user_id = some "upvote" then
      ⟨(add_vote (remove_vote votes sid user_id) sid user_id "downvote").1,
       .switched,
       update_embed db
         (add_vote (remove_vote votes sid user_id) sid user_id "downvote").1 sid⟩
    else
      ⟨(add_vote votes sid user_id "downvote").1, .added,
       update_embed db (add_vote votes sid user_id "downvote").1 sid⟩

/-- Outcome constructors of the `/approve` and `/reject` slash commands,
mirroring their ephemeral replies: `noReviewerRole` = "Reviewer role not set
up.", `notAuthorized` = "You need the reviewer role...", `notFound` =
"Suggestion not found." (also used when the stored guild differs from the
invoking guild), `success` = the confirmation reply. -/
inductive DecideResult where
  | noReviewerRole
  | notAuthorized
  | notFound
  | success
deriving Repr, DecidableEq

/-- Platform-side outcomes of the best-effort rendering block that follows a
committed decision: whether `guild.get_channel` found the channel, whether
the `fetch_message` + embed `edit` succeeded (any exception lands in the
enclosing `except: pass`), and whether locking the discussion thread
succeeded. -/
structure RenderFlags where
  channel_found : Bool
  message_edit_ok : Bool
  thread_lock_ok : Bool
deriving Repr, DecidableEq

/-- What the decision rendering block writes onto the public record when it
succeeds: the tally it re-read via `get_votes`, the displayed decider
("Anonymous Reviewer" when anonymous), the optional reason line, and whether
the thread ended up locked. -/
structure Rendered where
  tally : Nat × Nat
  decided_by : String
  reason : Option String
  thread_locked : Bool
deriving Repr, DecidableEq

/-- The rendering block of `approve` / `reject` (a pure read of the stores):
`none` when the channel is missing or the message fetch/edit failed. -/
def render_decision (votes : List Vote) (sid : String) (flags : RenderFlags)
    (anonymous : Bool) (actor : String) (reason : Option String) :
    Option Rendered :=
  if flags.channel_found && flags.message_edit_ok then
    some { tally := get_votes votes sid,
           decided_by := if anonymous then "Anonymous Reviewer" else actor,
           reason := reason,
           thread_locked := flags.thread_lock_ok }
  else none

/-- Result of a decision command: both stores after the call, the reply
constructor, and the rendering outcome. -/
structure DecideOutcome where
  db : List Suggestion
  votes : List Vote
  result : DecideResult
  rendered : Option Rendered
deriving Repr, DecidableEq

/-- `/approve` (main.py lines 704-766): settings/role gate, existence and
guild checks, then an unconditional `update_suggestion_status(..., 'approved',
reason, anonymous)` followed by best-effort rendering.  `authorized` stands
for the platform-side role-or-administrator check. -/
def approve_cmd (settings : Option GuildSettings) (authorized : Bool)
    (flags : RenderFlags) (db : List Suggestion) (votes : List Vote)
    (sid : String) (guild_id : Nat) (actor : String) (reason : Option String)
    (anonymous : Bool) : DecideOutcome :=
  match settings with
  | none => ⟨db, votes, .noReviewerRole, none⟩
  | some st =>
    if st.reviewer_role_id.isNone then ⟨db, votes, .noReviewerRole, none⟩
    else if ¬ authorized then ⟨db, votes, .notAuthorized, none⟩
    else
      match get_suggestion db sid with
      | none => ⟨db, votes, .notFound, none⟩
      | some s =>
        if s.guild_id ≠ guild_id then ⟨db, votes, .notFound, none⟩
        else
          ⟨update_suggestion_status db sid "approved" reason anonymous,
           votes, .success,
           render_decision votes sid flags anonymous actor reason⟩

/-- `/reject` (main.py lines 775-837): identical to `approve_cmd` with the
terminal status `'rejected'`. -/
def reject_cmd (settings : Option GuildSettings) (authorized : Bool)
    (flags : RenderFlags) (db : List Suggestion) (votes : List Vote)
    (sid : String) (guild_id : Nat) (actor : String) (reason : Option String)
    (anonymous : Bool) : DecideOutcome :=
  match settings with
  | none => ⟨db, votes, .noReviewerRole, none⟩
  | some st =>
    if st.reviewer_role_id.isNone then ⟨db, votes, .noReviewerRole, none⟩
    else if ¬ authorized then ⟨db, votes, .notAuthorized, none⟩
    else
      match get_suggestion db sid with
      | none => ⟨db, votes, .notFound, none⟩
      | some s =>
        if s.guild_id ≠ guild_id then ⟨db, votes, .notFound, none⟩
        else
          ⟨update_suggestion_status db sid "rejected" reason anonymous,
           votes, .success,
           render_decision votes sid flags anonymous actor reason⟩

/-- The alphabet of `generate_suggestion_id`:
`string.ascii_lowercase + string.digits`. -/
def suggestion_alphabet : String := "abcdefghijklmnopqrstuvwxyz0123456789"

/-- `generate_suggestion_id`: eight independent draws from the 36-character
alphabet.  The source draws each character with `secrets.choice`; the random
source is modelled as a stream of indices `draw : Nat → Nat`, reduced modulo
the alphabet size. -/
def generate_suggestion_id (draw : Nat → Nat) : String :=
  String.mk ((List.range 8).map
    (fun i => suggestion_alphabet.toList.getD (draw i % 36) 'a'))

/-- Outcome constructors of `SuggestionModal.on_submit`, mirroring its
ephemeral replies: `notConfigured` = "Suggestion channel not set up.",
`channelMissing` = "Suggestion channel not found.", `missingPerms` = the
missing-permissions reply, `publishFailed` = the message/thread creation
raised before `save_suggestion` ran, `creationError` = the generic
"Error creating suggestion" except-branch (in particular an
`IntegrityError` from a duplicate identifier), `submitted` =
"Suggestion submitted!". -/
inductive SubmitResult where
  | notConfigured
  | channelMissing
  | missingPerms
  | publishFailed
  | creationError
  | submitted
deriving Repr, DecidableEq

/-- `SuggestionModal.on_submit` (main.py lines 420-509): settings check,
channel lookup, permission check, a single `generate_suggestion_id()` call
(no retry loop exists in the source), message + thread publication, then
`save_suggestion` with status `'pending'`.  All failure paths leave the
suggestions table unchanged. -/
def on_submit (settings : Option GuildSettings) (channel_exists : Bool)
    (missing_perms : Bool) (publish_ok : Bool) (draw : Nat → Nat)
    (db : List Suggestion) (guild_id user_id message_id thread_id : Nat)
    (title description pros cons : String) (image_url : Option String)
    (created_at : String) : List Suggestion × SubmitResult :=
  match settings with
  | none => (db, .notConfigured)
  | some st =>
    match st.suggestion_channel_id with
    | none => (db, .notConfigured)
    | some _ =>
      if ¬ channel_exists then (db, .channelMissing)
      else if missing_perms then (db, .missingPerms)
      else
        let sid := generate_suggestion_id draw
        if ¬ publish_ok then (db, .publishFailed)
        else
          match save_suggestion db
            { suggestion_id := sid, guild_id := guild_id, user_id := user_id,
              message_id := message_id, thread_id := thread_id,
              title := title, description := description, pros := pros,
              cons := cons, image_url := image_url, status := "pending",
              created_at := created_at, decision_reason := none,
              decided_anonymously := false } with
          | none => (db, .creationError)
          | some db1 => (db1, .submitted)

/-- The `on_ready` re-attachment query (main.py lines 848-858):
`SELECT suggestion_id FROM suggestions WHERE status = 'pending'`. -/
def reattach_open (db : List Suggestion) : List String :=
  (db.filter (fun s => s.status == "pending")).map (fun s => s.suggestion_id)

/-- The whole startup re-attachment step: it reads the pending identifiers
and leaves the persistent store exactly as it was (the per-id
`bot.add_view` registration is in-memory only). -/
def on_ready_reattach (db : List Suggestion) : List String × List Suggestion :=
  (reattach_open db, db)

/-- Boolean form of the `votes` primary-key invariant: no two rows share the
(suggestion_id, user_id) key. -/
def distinct_vote_keys : List Vote → Bool
  | [] => true
  | v :: vs =>
      (!vs.any (fun w => w.suggestion_id == v.suggestion_id &&
                          w.user_id == v.user_id)) && distinct_vote_keys vs

/-! Concrete records used by the closed witness and counterexample
theorems. -/

/-- A pending suggestion in guild 1. -/
def sugg_pending : Suggestion :=
  { suggestion_id := "abc12345", guild_id := 1, user_id := 2, message_id := 3,
    thread_id := 4, title := "t", description := "d", pros := "p", cons := "c",
    image_url := none, status := "pending",
    created_at := "2026-01-01T00:00:00+00:00", decision_reason := none,
    decided_anonymously := false }

/-- An already-rejected suggestion in guild 1, with a stored decision. -/
def sugg_rejected : Suggestion :=
  { sugg_pending with
    suggestion_id := "zzz99999",
    status := "rejected",
    decision_reason := some "old reason" }

/-- An already-approved suggestion in guild 1. -/
def sugg_approved : Suggestion :=
  { sugg_pending with suggestion_id := "qqq00000", status := "approved" }

/-- A fully configured guild-settings row. -/
def demo_settings : GuildSettings :=
  { suggestion_channel_id := some 50, reviewer_role_id := some 60,
    blocked_role_id := none }

/-- Rendering succeeded end to end. -/
def demo_flags : RenderFlags :=
  { channel_found := true, message_edit_ok := true, thread_lock_ok := true }

/-- Rendering failed at every step. -/
def demo_flags_fail : RenderFlags :=
  { channel_found := false, message_edit_ok := false, thread_lock_ok := false }

/-! Generic list lemmas used to reason about the store operations. -/

theorem find?_none_iff_any_false {α : Type} (p : α → Bool) (l : List α) :
    l.find? p = none ↔ l.any p = false := by
  induction l with
  | nil => simp
  | cons a l ih =>
    cases h : p a with
    | true => simp [List.find?_cons, h]
    | false => simp [List.find?_cons, h, ih]

theorem filter_not_eq_self {α : Type} (p : α → Bool) (l : List α)
    (h : l.any p = false) : l.filter (fun a => !(p a)) = l := by
  induction l with
  | nil => rfl
  | cons a l ih =>
    simp only [List.any_cons, Bool.or_eq_false_iff] at h
    simp [List.filter_cons, h.1, ih h.2]

theorem any_filter_not {α : Type} (p : α → Bool) (l : List α) :
    (l.filter (fun a => !(p a))).any p = false := by
  induction l with
  | nil => rfl
  | cons a l ih =>
    cases h : p a <;> simp [List.filter_cons, h, ih]

theorem any_filter_false {α : Type} (p q : α → Bool) (l : List α)
    (h : l.any p = false) : (l.filter q).any p = false := by
  induction l with
  | nil => rfl
  | cons a l ih =>
    simp only [List.any_cons, Bool.or_eq_false_iff] at h
    cases hq : q a <;> simp [List.filter_cons, hq, h.1, ih h.2]

theorem find?_append_single {α : Type} (p : α → Bool) (l : List α) (x : α)
    (h : l.any p = false) (hx : p x = true) :
    (l ++ [x]).find? p = some x := by
  induction l with
  | nil => simp [List.find?_cons, hx]
  | cons a l ih =>
    simp only [List.any_cons, Bool.or_eq_false_iff] at h
    simp [List.find?_cons, h.1, ih h.2]

theorem any_append_single_false {α : Type} (p : α → Bool) (l : List α)
    (x : α) (h : l.any p = false) (hx : p x = false) :
    (l ++ [x]).any p = false := by
  induction l with
  | nil => simp [hx]
  | cons a l ih =>
    simp only [List.any_cons, Bool.or_eq_false_iff] at h
    simp [List.cons_append, List.any_cons, h.1, ih h.2]

theorem filter_not_append_single {α : Type} (p : α → Bool) (l : List α)
    (x : α) (hx : p x = true) :
    (l ++ [x]).filter (fun a => !(p a)) = l.filter (fun a => !(p a)) := by
  simp [List.filter_append, List.filter_cons, hx]

theorem countP_ext {α : Type} (p q : α → Bool) (l : List α)
    (h : ∀ a, p a = q a) : l.countP p = l.countP q := by
  induction l with
  | nil => rfl
  | cons a l ih => simp [List.countP_cons, h a, ih]

theorem get_suggestion_update (db : List Suggestion) (sid st : String)
    (r : Option String) (a : Bool) (s : Suggestion)
    (h : get_suggestion db sid = some s) :
    get_suggestion (update_suggestion_status db sid st r a) sid =
      some { s with status := st, decision_reason := r,
                    decided_anonymously := a } := by
  induction db with
  | nil => simp [get_suggestion] at h
  | cons t db ih =>
    by_cases ht : t.suggestion_id = sid
    · have hb : (t.suggestion_id == sid) = true := by simp [ht]
      have hts : t = s := by
        unfold get_suggestion at h
        rw [List.find?_cons_of_pos (p := fun x : Suggestion => x.suggestion_id == sid) db
          (by exact hb)] at h
        exact Option.some.inj h
      subst hts
      unfold get_suggestion update_suggestion_status
      simp only [List.map_cons]
      rw [if_pos hb,
        List.find?_cons_of_pos (p := fun x : Suggestion => x.suggestion_id == sid) _
          (by exact hb)]
    · have hb : (t.suggestion_id == sid) = false := by simp [ht]
      have h1 : get_suggestion db sid = some s := by
        unfold get_suggestion at h ⊢
        rwa [List.find?_cons_of_neg (p := fun x : Suggestion => x.suggestion_id == sid) db
          (by simp [hb])] at h
      have h2 := ih h1
      unfold get_suggestion update_suggestion_status at h2 ⊢
      simp only [List.map_cons]
      rw [if_neg (by simp [hb]),
        List.find?_cons_of_neg (p := fun x : Suggestion => x.suggestion_id == sid) _
          (by simp [hb])]
      exact h2

theorem distinct_vote_keys_filter (q : Vote → Bool) (l : List Vote)
    (h : distinct_vote_keys l = true) :
    distinct_vote_keys (l.filter q) = true := by
  induction l with
  | nil => rfl
  | cons v l ih =>
    simp only [distinct_vote_keys, Bool.and_eq_true, Bool.not_eq_true'] at h
    cases hq : q v with
    | false => simpa [List.filter_cons, hq] using ih h.2
    | true =>
      simp only [List.filter_cons, hq, if_true, distinct_vote_keys,
        Bool.and_eq_true, Bool.not_eq_true']
      exact ⟨any_filter_false _ q l h.1, ih h.2⟩

theorem distinct_vote_keys_append (l : List Vote) (v : Vote)
    (hd : distinct_vote_keys l = true)
    (hnew : l.any (fun w => w.suggestion_id == v.suggestion_id &&
                             w.user_id == v.user_id) = false) :
    distinct_vote_keys (l ++ [v]) = true := by
  induction l with
  | nil => rfl
  | cons a l ih =>
    simp only [distinct_vote_keys, Bool.and_eq_true, Bool.not_eq_true'] at hd
    simp only [List.any_cons, Bool.or_eq_false_iff] at hnew
    simp only [List.cons_append, distinct_vote_keys, Bool.and_eq_true,
      Bool.not_eq_true']
    refine ⟨?_, ih hd.2 hnew.2⟩
    refine any_append_single_false _ l v hd.1 ?_
    have h1 := hnew.1
    simp only [Bool.and_eq_false_iff, beq_eq_false_iff_ne] at h1 ⊢
    rcases h1 with h1 | h1
    · exact Or.inl (fun he => h1 he.symm)
    · exact Or.inr (fun he => h1 he.symm)

theorem distinct_add_vote (votes : List Vote) (sid : String) (uid : Nat)
    (vt : String) (h : distinct_vote_keys votes = true) :
    distinct_vote_keys (add_vote votes sid uid vt).1 = true := by
  unfold add_vote
  cases ha : votes.any (fun v => v.suggestion_id == sid && v.user_id == uid) with
  | true => simpa [ha] using h
  | false =>
    simp only [ha, Bool.false_eq_true, if_false]
    exact distinct_vote_keys_append votes ⟨sid, uid, vt⟩ h ha

theorem distinct_remove_vote (votes : List Vote) (sid : String) (uid : Nat)
    (h : distinct_vote_keys votes = true) :
    distinct_vote_keys (remove_vote votes sid uid) = true :=
  distinct_vote_keys_filter _ votes h

theorem find?_group_pairs (ts : List String) (g : String → Nat) (a : String) :
    (ts.map (fun t => (t, g t))).find? (fun r => r.1 == a) =
      if a ∈ ts then some (a, g a) else none := by
  induction ts with
  | nil => simp
  | cons t ts ih =>
    by_cases h : t = a
    · subst h
      simp [List.find?_cons]
    · have hb : (t == a) = false := by simp [h]
      have h2 : ¬ a = t := fun he => h he.symm
      simp [List.find?_cons, hb, ih, List.mem_cons, h2]

theorem countP_type_eq_zero (rows : List Vote) (t : String)
    (h : t ∉ rows.map (fun v => v.vote_type)) :
    rows.countP (fun v => v.vote_type == t) = 0 := by
  rw [List.countP_eq_zero]
  intro v hv
  simp only [beq_iff_eq]
  intro he
  exact h (List.mem_map.mpr ⟨v, hv, he⟩)

theorem get_votes_count (votes : List Vote) (sid t : String) :
    (((((votes.filter (fun v => v.suggestion_id == sid)).map
          (fun v => v.vote_type)).dedup.map
        (fun u => (u, (votes.filter (fun v => v.suggestion_id == sid)).countP
          (fun v => v.vote_type == u)))).find?
        (fun r => r.1 == t)).map (fun r => r.2)).getD 0 =
      votes.countP (fun v => v.suggestion_id == sid && v.vote_type == t) := by
  rw [find?_group_pairs]
  by_cases hm : t ∈ ((votes.filter (fun v => v.suggestion_id == sid)).map
      (fun v => v.vote_type)).dedup
  · rw [if_pos hm]
    simp only [Option.map_some', Option.getD_some]
    rw [List.countP_filter]
    exact countP_ext _ _ votes (fun v => Bool.and_comm _ _)
  · rw [if_neg hm]
    simp only [Option.map_none', Option.getD_none]
    have h0 : (votes.filter (fun v => v.suggestion_id == sid)).countP
        (fun v => v.vote_type == t) = 0 :=
      countP_type_eq_zero _ t (fun hmem => hm (List.mem_dedup.mpr hmem))
    rw [List.countP_filter] at h0
    rw [← countP_ext _ _ votes (fun v => Bool.and_comm _ _)] at h0
    exact h0.symm

theorem get_votes_eq_counts (votes : List Vote) (sid : String) :
    get_votes votes sid =
      (votes.countP (fun v => v.suggestion_id == sid && v.vote_type == "upvote"),
       votes.countP (fun v => v.suggestion_id == sid && v.vote_type == "downvote")) := by
  unfold get_votes
  exact Prod.ext (get_votes_count votes sid "upvote")
    (get_votes_count votes sid "downvote")

theorem any_key_of_none (votes : List Vote) (sid : String) (uid : Nat)
    (h : get_user_vote votes sid uid = none) :
    votes.any (fun v => v.suggestion_id == sid && v.user_id == uid) = false := by
  unfold get_user_vote at h
  cases hf : votes.find? (fun v => v.suggestion_id == sid && v.user_id == uid) with
  | none => exact (find?_none_iff_any_false _ _).mp hf
  | some v => rw [hf] at h; simp at h

theorem any_key_remove (votes : List Vote) (sid : String) (uid : Nat) :
    (remove_vote votes sid uid).any
      (fun v => v.suggestion_id == sid && v.user_id == uid) = false :=
  any_filter_not _ votes

theorem get_user_vote_remove (votes : List Vote) (sid : String) (uid : Nat) :
    get_user_vote (remove_vote votes sid uid) sid uid = none := by
  unfold get_user_vote
  rw [(find?_none_iff_any_false _ _).mpr (any_key_remove votes sid uid)]
  rfl

theorem get_user_vote_append (votes : List Vote) (sid : String) (uid : Nat)
    (vt : String)
    (h : votes.any (fun v => v.suggestion_id == sid && v.user_id == uid) = false) :
    get_user_vote (votes ++ [⟨sid, uid, vt⟩]) sid uid = some vt := by
  unfold get_user_vote
  rw [find?_append_single _ votes _ h (by simp)]
  rfl

theorem add_vote_remove_eq (votes : List Vote) (sid : String) (uid : Nat)
    (vt : String) :
    (add_vote (remove_vote votes sid uid) sid uid vt).1 =
      remove_vote votes sid uid ++ [⟨sid, uid, vt⟩] := by
  unfold add_vote
  rw [if_neg]
  simp [any_key_remove votes sid uid]

theorem add_vote_fresh_eq (votes : List Vote) (sid : String) (uid : Nat)
    (vt : String)
    (h : votes.any (fun v => v.suggestion_id == sid && v.user_id == uid) = false) :
    (add_vote votes sid uid vt).1 = votes ++ [⟨sid, uid, vt⟩] := by
  unfold add_vote
  rw [if_neg]
  simp [h]

theorem remove_append_key (votes : List Vote) (sid : String) (uid : Nat)
    (vt : String)
    (h : votes.any (fun v => v.suggestion_id == sid && v.user_id == uid) = false) :
    remove_vote (votes ++ [⟨sid, uid, vt⟩]) sid uid = votes := by
  unfold remove_vote
  rw [filter_not_append_single
    (fun v : Vote => v.suggestion_id == sid && v.user_id == uid) votes _
    (by simp)]
  exact filter_not_eq_self _ votes h

theorem handle_upvote_removed (db : List Suggestion) (votes : List Vote)
    (sid : String) (g uid : Nat) (s : Suggestion)
    (hs : get_suggestion db sid = some s) (hg : s.guild_id = g)
    (hp : s.status = "pending")
    (hv : get_user_vote votes sid uid = some "upvote") :
    handle_upvote db votes sid g uid =
      ⟨remove_vote votes sid uid, .removed,
       some (get_votes (remove_vote votes sid uid) sid)⟩ := by
  simp [handle_upvote, update_embed, hs, hg, hp, hv]

theorem handle_upvote_switched (db : List Suggestion) (votes : List Vote)
    (sid : String) (g uid : Nat) (s : Suggestion)
    (hs : get_suggestion db sid = some s) (hg : s.guild_id = g)
    (hp : s.status = "pending")
    (hv : get_user_vote votes sid uid = some "downvote") :
    handle_upvote db votes sid g uid =
      ⟨remove_vote votes sid uid ++ [⟨sid, uid, "upvote"⟩], .switched,
       some (get_votes (remove_vote votes sid uid ++ [⟨sid, uid, "upvote"⟩]) sid)⟩ := by
  rw [show remove_vote votes sid uid ++ [(⟨sid, uid, "upvote"⟩ : Vote)] =
      (add_vote (remove_vote votes sid uid) sid uid "upvote").1 from
    (add_vote_remove_eq votes sid uid "upvote").symm]
  simp [handle_upvote, update_embed, hs, hg, hp, hv]

theorem handle_upvote_added (db : List Suggestion) (votes : List Vote)
    (sid : String) (g uid : Nat) (s : Suggestion)
    (hs : get_suggestion db sid = some s) (hg : s.guild_id = g)
    (hp : s.status = "pending")
    (hv : get_user_vote votes sid uid = none) :
    handle_upvote db votes sid g uid =
      ⟨votes ++ [⟨sid, uid, "upvote"⟩], .added,
       some (get_votes (votes ++ [⟨sid, uid, "upvote"⟩]) sid)⟩ := by
  rw [show votes ++ [(⟨sid, uid, "upvote"⟩ : Vote)] =
      (add_vote votes sid uid "upvote").1 from
    (add_vote_fresh_eq votes sid uid "upvote" (any_key_of_none votes sid uid hv)).symm]
  simp [handle_upvote, update_embed, hs, hg, hp, hv]

theorem handle_downvote_removed (db : List Suggestion) (votes : List Vote)
    (sid : String) (g uid : Nat) (s : Suggestion)
    (hs : get_suggestion db sid = some s) (hg : s.guild_id = g)
    (hp : s.status = "pending")
    (hv : get_user_vote votes sid uid = some "downvote") :
    handle_downvote db votes sid g uid =
      ⟨remove_vote votes sid uid, .removed,
       some (get_votes (remove_vote votes sid uid) sid)⟩ := by
  simp [handle_downvote, update_embed, hs, hg, hp, hv]

theorem handle_downvote_switched (db : List Suggestion) (votes : List Vote)
    (sid : String) (g uid : Nat) (s : Suggestion)
    (hs : get_suggestion db sid = some s) (hg : s.guild_id = g)
    (hp : s.status = "pending")
    (hv : get_user_vote votes sid uid = some "upvote") :
    handle_downvote db votes sid g uid =
      ⟨remove_vote votes sid uid ++ [⟨sid, uid, "downvote"⟩], .switched,
       some (get_votes (remove_vote votes sid uid ++ [⟨sid, uid, "downvote"⟩]) sid)⟩ := by
  rw [show remove_vote votes sid uid ++ [(⟨sid, uid, "downvote"⟩ : Vote)] =
      (add_vote (remove_vote votes sid uid) sid uid "downvote").1 from
    (add_vote_remove_eq votes sid uid "downvote").symm]
  simp [handle_downvote, update_embed, hs, hg, hp, hv]

theorem handle_downvote_added (db : List Suggestion) (votes : List Vote)
    (sid : String) (g uid : Nat) (s : Suggestion)
    (hs : get_suggestion db sid = some s) (hg : s.guild_id = g)
    (hp : s.status = "pending")
    (hv : get_user_vote votes sid uid = none) :
    handle_downvote db votes sid g uid =
      ⟨votes ++ [⟨sid, uid, "downvote"⟩], .added,
       some (get_votes (votes ++ [⟨sid, uid, "downvote"⟩]) sid)⟩ := by
  rw [show votes ++ [(⟨sid, uid, "downvote"⟩ : Vote)] =
      (add_vote votes sid uid "downvote").1 from
    (add_vote_fresh_eq votes sid uid "downvote" (any_key_of_none votes sid uid hv)).symm]
  simp [handle_downvote, update_embed, hs, hg, hp, hv]

theorem handle_upvote_votes_cases (db : List Suggestion) (votes : List Vote)
    (sid : String) (g uid : Nat) :
    (handle_upvote db votes sid g uid).votes = votes ∨
    (handle_upvote db votes sid g uid).votes = remove_vote votes sid uid ∨
    (handle_upvote db votes sid g uid).votes =
      (add_vote (remove_vote votes sid uid) sid uid "upvote").1 ∨
    (handle_upvote db votes sid g uid).votes =
      (add_vote votes sid uid "upvote").1 := by
  unfold handle_upvote
  cases get_suggestion db sid with
  | none => exact Or.inl rfl
  | some s =>
    dsimp only
    by_cases hg : s.guild_id ≠ g
    · rw [if_pos hg]
      exact Or.inl rfl
    · rw [if_neg hg]
      by_cases hp : s.status ≠ "pending"
      · rw [if_pos hp]
        exact Or.inl rfl
      · rw [if_neg hp]
        by_cases h1 : get_user_vote votes sid uid = some "upvote"
        · rw [if_pos h1]
          exact Or.inr (Or.inl rfl)
        · rw [if_neg h1]
          by_cases h2 : get_user_vote votes sid uid = some "downvote"
          · rw [if_pos h2]
            exact Or.inr (Or.inr (Or.inl rfl))
          · rw [if_neg h2]
            exact Or.inr (Or.inr (Or.inr rfl))

theorem handle_downvote_votes_cases (db : List Suggestion) (votes : List Vote)
    (sid : String) (g uid : Nat) :
    (handle_downvote db votes sid g uid).votes = votes ∨
    (handle_downvote db votes sid g uid).votes = remove_vote votes sid uid ∨
    (handle_downvote db votes sid g uid).votes =
      (add_vote (remove_vote votes sid uid) sid uid "downvote").1 ∨
    (handle_downvote db votes sid g uid).votes =
      (add_vote votes sid uid "downvote").1 := by
  unfold handle_downvote
  cases get_suggestion db sid with
  | none => exact Or.inl rfl
  | some s =>
    dsimp only
    by_cases hg : s.guild_id ≠ g
    · rw [if_pos hg]
      exact Or.inl rfl
    · rw [if_neg hg]
      by_cases hp : s.status ≠ "pending"
      · rw [if_pos hp]
        exact Or.inl rfl
      · rw [if_neg hp]
        by_cases h1 : get_user_vote votes sid uid = some "downvote"
        · rw [if_pos h1]
          exact Or.inr (Or.inl rfl)
        · rw [if_neg h1]
          by_cases h2 : get_user_vote votes sid uid = some "upvote"
          · rw [if_pos h2]
            exact Or.inr (Or.inr (Or.inl rfl))
          · rw [if_neg h2]
            exact Or.inr (Or.inr (Or.inr rfl))

theorem distinct_handle_upvote (db : List Suggestion) (votes : List Vote)
    (sid : String) (g uid : Nat) (h : distinct_vote_keys votes = true) :
    distinct_vote_keys (handle_upvote db votes sid g uid).votes = true := by
  rcases handle_upvote_votes_cases db votes sid g uid with hc | hc | hc | hc <;>
    rw [hc]
  · exact h
  · exact distinct_remove_vote votes sid uid h
  · exact distinct_add_vote _ sid uid _ (distinct_remove_vote votes sid uid h)
  · exact distinct_add_vote _ sid uid _ h

theorem distinct_handle_downvote (db : List Suggestion) (votes : List Vote)
    (sid : String) (g uid : Nat) (h : distinct_vote_keys votes = true) :
    distinct_vote_keys (handle_downvote db votes sid g uid).votes = true := by
  rcases handle_downvote_votes_cases db votes sid g uid with hc | hc | hc | hc <;>
    rw [hc]
  · exact h
  · exact distinct_remove_vote votes sid uid h
  · exact distinct_add_vote _ sid uid _ (distinct_remove_vote votes sid uid h)
  · exact distinct_add_vote _ sid uid _ h

/-- C3: for every suggestion whose status is not `pending`, any vote-button
press on it (matching guild) replies "Voting is closed", leaves the votes
table unchanged, and updates no embed. -/
theorem c3_vote_closed_when_not_pending (db : List Suggestion)
    (votes : List Vote) (sid : String) (g uid : Nat) (s : Suggestion)
    (hs : get_suggestion db sid = some s) (hg : s.guild_id = g)
    (hp : s.status ≠ "pending") :
    handle_upvote db votes sid g uid = ⟨votes, .votingClosed, none⟩ ∧
    handle_downvote db votes sid g uid = ⟨votes, .votingClosed, none⟩ := by
  constructor <;> simp [handle_upvote, handle_downvote, hs, hg, hp]

/-- Witness for C3 on a concrete approved suggestion. -/
theorem c3_witness :
    handle_upvote [sugg_approved] [⟨"qqq00000", 7, "upvote"⟩] "qqq00000" 1 7 =
      ⟨[⟨"qqq00000", 7, "upvote"⟩], VoteResult.votingClosed, none⟩ ∧
    handle_downvote [sugg_approved] [⟨"qqq00000", 7, "upvote"⟩] "qqq00000" 1 7 =
      ⟨[⟨"qqq00000", 7, "upvote"⟩], VoteResult.votingClosed, none⟩ :=
  c3_vote_closed_when_not_pending [sugg_approved] [⟨"qqq00000", 7, "upvote"⟩]
    "qqq00000" 1 7 sugg_approved (by decide) (by decide) (by decide)

/-- C2: the `castVote` decision table on a pending suggestion.  When the
voter's current vote equals the pressed direction the row is removed and the
reply is `removed`; when it is the opposite direction the old row is removed
and a row of the new type appended (`switched`); when there is no current
vote a row is appended (`added`); in every case the re-rendered embed shows
the tally of the updated table. -/
theorem c2_cast_vote_decision_table (db : List Suggestion) (votes : List Vote)
    (sid : String) (g uid : Nat) (s : Suggestion)
    (hs : get_suggestion db sid = some s) (hg : s.guild_id = g)
    (hp : s.status = "pending") :
    (get_user_vote votes sid uid = some "upvote" →
      handle_upvote db votes sid g uid =
        ⟨remove_vote votes sid uid, .removed,
         some (get_votes (remove_vote votes sid uid) sid)⟩ ∧
      get_user_vote (handle_upvote db votes sid g uid).votes sid uid = none ∧
      handle_downvote db votes sid g uid =
        ⟨remove_vote votes sid uid ++ [⟨sid, uid, "downvote"⟩], .switched,
         some (get_votes (remove_vote votes sid uid ++ [⟨sid, uid, "downvote"⟩]) sid)⟩ ∧
      get_user_vote (handle_downvote db votes sid g uid).votes sid uid =
        some "downvote") ∧
    (get_user_vote votes sid uid = some "downvote" →
      handle_downvote db votes sid g uid =
        ⟨remove_vote votes sid uid, .removed,
         some (get_votes (remove_vote votes sid uid) sid)⟩ ∧
      get_user_vote (handle_downvote db votes sid g uid).votes sid uid = none ∧
      handle_upvote db votes sid g uid =
        ⟨remove_vote votes sid uid ++ [⟨sid, uid, "upvote"⟩], .switched,
         some (get_votes (remove_vote votes sid uid ++ [⟨sid, uid, "upvote"⟩]) sid)⟩ ∧
      get_user_vote (handle_upvote db votes sid g uid).votes sid uid =
        some "upvote") ∧
    (get_user_vote votes sid uid = none →
      handle_upvote db votes sid g uid =
        ⟨votes ++ [⟨sid, uid, "upvote"⟩], .added,
         some (get_votes (votes ++ [⟨sid, uid, "upvote"⟩]) sid)⟩ ∧
      get_user_vote (handle_upvote db votes sid g uid).votes sid uid =
        some "upvote" ∧
      handle_downvote db votes sid g uid =
        ⟨votes ++ [⟨sid, uid, "downvote"⟩], .added,
         some (get_votes (votes ++ [⟨sid, uid, "downvote"⟩]) sid)⟩ ∧
      get_user_vote (handle_downvote db votes sid g uid).votes sid uid =
        some "downvote") := by
  refine ⟨fun hv => ?_, fun hv => ?_, fun hv => ?_⟩
  · have hu := handle_upvote_removed db votes sid g uid s hs hg hp hv
    have hd := handle_downvote_switched db votes sid g uid s hs hg hp hv
    refine ⟨hu, ?_, hd, ?_⟩
    · rw [hu]
      exact get_user_vote_remove votes sid uid
    · rw [hd]
      exact get_user_vote_append _ sid uid _ (any_key_remove votes sid uid)
  · have hd := handle_downvote_removed db votes sid g uid s hs hg hp hv
    have hu := handle_upvote_switched db votes sid g uid s hs hg hp hv
    refine ⟨hd, ?_, hu, ?_⟩
    · rw [hd]
      exact get_user_vote_remove votes sid uid
    · rw [hu]
      exact get_user_vote_append _ sid uid _ (any_key_remove votes sid uid)
  · have hu := handle_upvote_added db votes sid g uid s hs hg hp hv
    have hd := handle_downvote_added db votes sid g uid s hs hg hp hv
    have ha := any_key_of_none votes sid uid hv
    refine ⟨hu, ?_, hd, ?_⟩
    · rw [hu]
      exact get_user_vote_append votes sid uid _ ha
    · rw [hd]
      exact get_user_vote_append votes sid uid _ ha

/-- Witness for C2: a voter with an existing upvote presses each button on a
concrete pending suggestion. -/
theorem c2_witness :
    handle_upvote [sugg_pending] [⟨"abc12345", 7, "upvote"⟩] "abc12345" 1 7 =
      ⟨[], VoteResult.removed, some (0, 0)⟩ ∧
    handle_downvote [sugg_pending] [⟨"abc12345", 7, "upvote"⟩] "abc12345" 1 7 =
      ⟨[⟨"abc12345", 7, "downvote"⟩], VoteResult.switched, some (0, 1)⟩ := by
  have h := (c2_cast_vote_decision_table [sugg_pending]
    [⟨"abc12345", 7, "upvote"⟩] "abc12345" 1 7 sugg_pending (by decide)
    (by decide) (by decide)).1 (by decide)
  exact ⟨h.1, h.2.2.1⟩

/-- C6: the votes table keeps at most one row per (suggestion, voter) key
across any button press, and on a pending suggestion a voter with no current
vote who presses the same button twice leaves the table exactly as it
started (toggle to zero net votes). -/
theorem c6_toggle_and_uniqueness (db : List Suggestion) (votes : List Vote)
    (sid : String) (g uid : Nat) :
    (distinct_vote_keys votes = true →
      distinct_vote_keys (handle_upvote db votes sid g uid).votes = true ∧
      distinct_vote_keys (handle_downvote db votes sid g uid).votes = true) ∧
    (∀ s : Suggestion, get_suggestion db sid = some s → s.guild_id = g →
      s.status = "pending" → get_user_vote votes sid uid = none →
      (handle_upvote db (handle_upvote db votes sid g uid).votes sid g uid).votes
        = votes ∧
      (handle_downvote db
        (handle_downvote db votes sid g uid).votes sid g uid).votes = votes) := by
  constructor
  · intro h
    exact ⟨distinct_handle_upvote db votes sid g uid h,
           distinct_handle_downvote db votes sid g uid h⟩
  · intro s hs hg hp hv
    have ha := any_key_of_none votes sid uid hv
    constructor
    · rw [handle_upvote_added db votes sid g uid s hs hg hp hv]
      show (handle_upvote db (votes ++ [⟨sid, uid, "upvote"⟩]) sid g uid).votes
        = votes
      rw [handle_upvote_removed db
        (votes ++ [(⟨sid, uid, "upvote"⟩ : Vote)]) sid g uid
        s hs hg hp (get_user_vote_append votes sid uid _ ha)]
      exact remove_append_key votes sid uid _ ha
    · rw [handle_downvote_added db votes sid g uid s hs hg hp hv]
      show (handle_downvote db (votes ++ [⟨sid, uid, "downvote"⟩]) sid g uid).votes
        = votes
      rw [handle_downvote_removed db
        (votes ++ [(⟨sid, uid, "downvote"⟩ : Vote)]) sid g uid
        s hs hg hp (get_user_vote_append votes sid uid _ ha)]
      exact remove_append_key votes sid uid _ ha

/-- Witness for C6: the key-uniqueness invariant survives a button press and
a fresh voter's double press of each button nets zero on a concrete pending
suggestion. -/
theorem c6_witness :
    (distinct_vote_keys [⟨"abc12345", 9, "downvote"⟩] = true →
      distinct_vote_keys
        (handle_upvote [sugg_pending] [⟨"abc12345", 9, "downvote"⟩]
          "abc12345" 1 7).votes = true ∧
      distinct_vote_keys
        (handle_downvote [sugg_pending] [⟨"abc12345", 9, "downvote"⟩]
          "abc12345" 1 7).votes = true) ∧
    ((handle_upvote [sugg_pending]
        (handle_upvote [sugg_pending] [⟨"abc12345", 9, "downvote"⟩]
          "abc12345" 1 7).votes "abc12345" 1 7).votes =
      [⟨"abc12345", 9, "downvote"⟩] ∧
     (handle_downvote [sugg_pending]
        (handle_downvote [sugg_pending] [⟨"abc12345", 9, "downvote"⟩]
          "abc12345" 1 7).votes "abc12345" 1 7).votes =
      [⟨"abc12345", 9, "downvote"⟩]) :=
  ⟨(c6_toggle_and_uniqueness [sugg_pending] [⟨"abc12345", 9, "downvote"⟩]
      "abc12345" 1 7).1,
   (c6_toggle_and_uniqueness [sugg_pending] [⟨"abc12345", 9, "downvote"⟩]
      "abc12345" 1 7).2 sugg_pending (by decide) (by decide) (by decide)
      (by decide)⟩

/-- C10: when the suggestion exists but is stored under a different guild
than the one the action is invoked from, a vote press and both decision
commands reply with the same "Suggestion not found." outcome as a missing
suggestion, and neither store changes. -/
theorem c10_cross_guild_not_found (db : List Suggestion) (votes : List Vote)
    (sid actor : String) (g uid : Nat) (st : GuildSettings)
    (flags : RenderFlags) (reason : Option String) (anon : Bool)
    (s : Suggestion)
    (hs : get_suggestion db sid = some s) (hg : s.guild_id ≠ g)
    (hrole : st.reviewer_role_id.isNone = false) :
    handle_upvote db votes sid g uid = ⟨votes, .notFound, none⟩ ∧
    handle_downvote db votes sid g uid = ⟨votes, .notFound, none⟩ ∧
    approve_cmd (some st) true flags db votes sid g actor reason anon =
      ⟨db, votes, .notFound, none⟩ ∧
    reject_cmd (some st) true flags db votes sid g actor reason anon =
      ⟨db, votes, .notFound, none⟩ := by
  refine ⟨?_, ?_, ?_, ?_⟩ <;>
    simp [handle_upvote, handle_downvote, approve_cmd, reject_cmd, hs, hg, hrole]

/-- Witness for C10: the suggestion lives in guild 1 but the action comes
from guild 2. -/
theorem c10_witness :
    handle_upvote [sugg_pending] [] "abc12345" 2 7 =
      ⟨[], VoteResult.notFound, none⟩ ∧
    handle_downvote [sugg_pending] [] "abc12345" 2 7 =
      ⟨[], VoteResult.notFound, none⟩ ∧
    approve_cmd (some demo_settings) true demo_flags [sugg_pending] []
      "abc12345" 2 "actor" none false =
      ⟨[sugg_pending], [], DecideResult.notFound, none⟩ ∧
    reject_cmd (some demo_settings) true demo_flags [sugg_pending] []
      "abc12345" 2 "actor" none false =
      ⟨[sugg_pending], [], DecideResult.notFound, none⟩ :=
  c10_cross_guild_not_found [sugg_pending] [] "abc12345" "actor" 2 7
    demo_settings demo_flags none false sugg_pending (by decide) (by decide)
    (by decide)

/-- C1 counterexample: on a suggestion already `rejected`, `/approve`
succeeds and overwrites the stored status and decision fields — no
`AlreadyDecided`-style failure exists in the code and the status does
change. -/
theorem c1_counterexample :
    sugg_rejected.status = "rejected" ∧
    sugg_rejected.decision_reason = some "old reason" ∧
    (approve_cmd (some demo_settings) true demo_flags [sugg_rejected] []
      "zzz99999" 1 "actor" (some "new reason") true).result =
      DecideResult.success ∧
    get_suggestion
      (approve_cmd (some demo_settings) true demo_flags [sugg_rejected] []
        "zzz99999" 1 "actor" (some "new reason") true).db "zzz99999" =
      some { sugg_rejected with
             status := "approved",
             decision_reason := some "new reason",
             decided_anonymously := true } := by
  refine ⟨rfl, rfl, rfl, ?_⟩
  decide

/-- C1 amended: the decision commands perform no status check.  On a
suggestion whose status is not `pending` (in the command's guild, with
settings and authorization in place), `/approve` and `/reject` both succeed
and overwrite status, decision reason and anonymity flag — so a status can
transition more than once, including between the two terminal states. -/
theorem c1_amended_decide_overwrites (st : GuildSettings) (flags : RenderFlags)
    (db : List Suggestion) (votes : List Vote) (sid actor : String) (g : Nat)
    (reason : Option String) (anon : Bool) (s : Suggestion)
    (hrole : st.reviewer_role_id.isNone = false)
    (hs : get_suggestion db sid = some s) (hg : s.guild_id = g)
    (hstat : s.status ≠ "pending") :
    (approve_cmd (some st) true flags db votes sid g actor reason anon).result
      = DecideResult.success ∧
    get_suggestion
      (approve_cmd (some st) true flags db votes sid g actor reason anon).db
      sid =
      some { s with
             status := "approved",
             decision_reason := reason,
             decided_anonymously := anon } ∧
    (reject_cmd (some st) true flags db votes sid g actor reason anon).result
      = DecideResult.success ∧
    get_suggestion
      (reject_cmd (some st) true flags db votes sid g actor reason anon).db
      sid =
      some { s with
             status := "rejected",
             decision_reason := reason,
             decided_anonymously := anon } := by
  have happ : approve_cmd (some st) true flags db votes sid g actor reason anon
      = ⟨update_suggestion_status db sid "approved" reason anon, votes,
         .success, render_decision votes sid flags anon actor reason⟩ := by
    simp [approve_cmd, hrole, hs, hg]
  have hrej : reject_cmd (some st) true flags db votes sid g actor reason anon
      = ⟨update_suggestion_status db sid "rejected" reason anon, votes,
         .success, render_decision votes sid flags anon actor reason⟩ := by
    simp [reject_cmd, hrole, hs, hg]
  refine ⟨?_, ?_, ?_, ?_⟩
  · rw [happ]
  · rw [happ]
    exact get_suggestion_update db sid "approved" reason anon s hs
  · rw [hrej]
  · rw [hrej]
    exact get_suggestion_update db sid "rejected" reason anon s hs

/-- Witness for the amended C1: re-deciding a concrete rejected suggestion
in both directions. -/
theorem c1_witness :
    (approve_cmd (some demo_settings) true demo_flags_fail [sugg_rejected] []
      "zzz99999" 1 "actor" none false).result = DecideResult.success ∧
    get_suggestion
      (approve_cmd (some demo_settings) true demo_flags_fail [sugg_rejected] []
        "zzz99999" 1 "actor" none false).db "zzz99999" =
      some { sugg_rejected with
             status := "approved",
             decision_reason := none,
             decided_anonymously := false } ∧
    (reject_cmd (some demo_settings) true demo_flags_fail [sugg_rejected] []
      "zzz99999" 1 "actor" none false).result = DecideResult.success ∧
    get_suggestion
      (reject_cmd (some demo_settings) true demo_flags_fail [sugg_rejected] []
        "zzz99999" 1 "actor" none false).db "zzz99999" =
      some { sugg_rejected with
             status := "rejected",
             decision_reason := none,
             decided_anonymously := false } :=
  c1_amended_decide_overwrites demo_settings demo_flags_fail [sugg_rejected]
    [] "zzz99999" "actor" 1 none false sugg_rejected (by decide) (by decide)
    (by decide) (by decide)

theorem approve_cmd_votes_eq (settings : Option GuildSettings)
    (authorized : Bool) (flags : RenderFlags) (db : List Suggestion)
    (votes : List Vote) (sid actor : String) (g : Nat)
    (reason : Option String) (anon : Bool) :
    (approve_cmd settings authorized flags db votes sid g actor reason anon).votes
      = votes := by
  unfold approve_cmd
  cases settings with
  | none => rfl
  | some st =>
    dsimp only
    split
    · rfl
    · split
      · rfl
      · split
        · rfl
        · split
          · rfl
          · rfl

theorem reject_cmd_votes_eq (settings : Option GuildSettings)
    (authorized : Bool) (flags : RenderFlags) (db : List Suggestion)
    (votes : List Vote) (sid actor : String) (g : Nat)
    (reason : Option String) (anon : Bool) :
    (reject_cmd settings authorized flags db votes sid g actor reason anon).votes
      = votes := by
  unfold reject_cmd
  cases settings with
  | none => rfl
  | some st =>
    dsimp only
    split
    · rfl
    · split
      · rfl
      · split
        · rfl
        · split
          · rfl
          · rfl

theorem approve_cmd_db_eq (settings : Option GuildSettings)
    (authorized : Bool) (flags : RenderFlags) (db : List Suggestion)
    (votes : List Vote) (sid actor : String) (g : Nat)
    (reason : Option String) (anon : Bool) :
    (approve_cmd settings authorized flags db votes sid g actor reason anon).db
      = if (approve_cmd settings authorized flags db votes sid g actor
              reason anon).result = DecideResult.success
        then update_suggestion_status db sid "approved" reason anon
        else db := by
  unfold approve_cmd
  cases settings with
  | none => simp
  | some st =>
    dsimp only
    split
    · simp
    · split
      · simp
      · split
        · simp
        · split
          · simp
          · simp

theorem reject_cmd_db_eq (settings : Option GuildSettings)
    (authorized : Bool) (flags : RenderFlags) (db : List Suggestion)
    (votes : List Vote) (sid actor : String) (g : Nat)
    (reason : Option String) (anon : Bool) :
    (reject_cmd settings authorized flags db votes sid g actor reason anon).db
      = if (reject_cmd settings authorized flags db votes sid g actor
              reason anon).result = DecideResult.success
        then update_suggestion_status db sid "rejected" reason anon
        else db := by
  unfold reject_cmd
  cases settings with
  | none => simp
  | some st =>
    dsimp only
    split
    · simp
    · split
      · simp
      · split
        · simp
        · split
          · simp
          · simp

theorem approve_cmd_result_flags (settings : Option GuildSettings)
    (authorized : Bool) (flags flags2 : RenderFlags) (db : List Suggestion)
    (votes : List Vote) (sid actor : String) (g : Nat)
    (reason : Option String) (anon : Bool) :
    (approve_cmd settings authorized flags db votes sid g actor reason anon).result
      = (approve_cmd settings authorized flags2 db votes sid g actor reason anon).result := by
  unfold approve_cmd
  cases settings with
  | none => rfl
  | some st =>
    dsimp only
    split
    · rfl
    · split
      · rfl
      · split
        · rfl
        · split
          · rfl
          · rfl

theorem reject_cmd_result_flags (settings : Option GuildSettings)
    (authorized : Bool) (flags flags2 : RenderFlags) (db : List Suggestion)
    (votes : List Vote) (sid actor : String) (g : Nat)
    (reason : Option String) (anon : Bool) :
    (reject_cmd settings authorized flags db votes sid g actor reason anon).result
      = (reject_cmd settings authorized flags2 db votes sid g actor reason anon).result := by
  unfold reject_cmd
  cases settings with
  | none => rfl
  | some st =>
    dsimp only
    split
    · rfl
    · split
      · rfl
      · split
        · rfl
        · split
          · rfl
          · rfl

/-- C9: the rendering block never touches the stores.  The suggestions and
votes tables produced by `/approve` and `/reject` are identical under any
two rendering outcomes, and once the command reaches its commit the stores
hold exactly the committed `update_suggestion_status` result with the votes
table untouched — a later fetch/edit/lock failure rolls nothing back. -/
theorem c9_render_failure_frame (settings : Option GuildSettings)
    (authorized : Bool) (flags flags2 : RenderFlags) (db : List Suggestion)
    (votes : List Vote) (sid actor : String) (g : Nat)
    (reason : Option String) (anon : Bool) :
    ((approve_cmd settings authorized flags db votes sid g actor reason anon).db
      = (approve_cmd settings authorized flags2 db votes sid g actor reason anon).db ∧
     (approve_cmd settings authorized flags db votes sid g actor reason anon).votes
      = (approve_cmd settings authorized flags2 db votes sid g actor reason anon).votes ∧
     (reject_cmd settings authorized flags db votes sid g actor reason anon).db
      = (reject_cmd settings authorized flags2 db votes sid g actor reason anon).db ∧
     (reject_cmd settings authorized flags db votes sid g actor reason anon).votes
      = (reject_cmd settings authorized flags2 db votes sid g actor reason anon).votes) ∧
    ((approve_cmd settings authorized flags db votes sid g actor reason anon).result
        = DecideResult.success →
      (approve_cmd settings authorized flags db votes sid g actor reason anon).db
        = update_suggestion_status db sid "approved" reason anon ∧
      (approve_cmd settings authorized flags db votes sid g actor reason anon).votes
        = votes) ∧
    ((reject_cmd settings authorized flags db votes sid g actor reason anon).result
        = DecideResult.success →
      (reject_cmd settings authorized flags db votes sid g actor reason anon).db
        = update_suggestion_status db sid "rejected" reason anon ∧
      (reject_cmd settings authorized flags db votes sid g actor reason anon).votes
        = votes) := by
  refine ⟨⟨?_, ?_, ?_, ?_⟩, fun h => ⟨?_, ?_⟩, fun h => ⟨?_, ?_⟩⟩
  · rw [approve_cmd_db_eq settings authorized flags db votes sid actor g reason anon,
      approve_cmd_db_eq settings authorized flags2 db votes sid actor g reason anon,
      approve_cmd_result_flags settings authorized flags flags2 db votes sid
        actor g reason anon]
  · rw [approve_cmd_votes_eq settings authorized flags db votes sid actor g reason anon,
      approve_cmd_votes_eq settings authorized flags2 db votes sid actor g reason anon]
  · rw [reject_cmd_db_eq settings authorized flags db votes sid actor g reason anon,
      reject_cmd_db_eq settings authorized flags2 db votes sid actor g reason anon,
      reject_cmd_result_flags settings authorized flags flags2 db votes sid
        actor g reason anon]
  · rw [reject_cmd_votes_eq settings authorized flags db votes sid actor g reason anon,
      reject_cmd_votes_eq settings authorized flags2 db votes sid actor g reason anon]
  · rw [approve_cmd_db_eq settings authorized flags db votes sid actor g reason anon,
      if_pos h]
  · exact approve_cmd_votes_eq settings authorized flags db votes sid actor g reason anon
  · rw [reject_cmd_db_eq settings authorized flags db votes sid actor g reason anon,
      if_pos h]
  · exact reject_cmd_votes_eq settings authorized flags db votes sid actor g reason anon

/-- Witness for C9: with every rendering step failing, the stores still hold
the committed decision on a concrete pending suggestion. -/
theorem c9_witness :
    (approve_cmd (some demo_settings) true demo_flags_fail [sugg_pending]
      [⟨"abc12345", 7, "upvote"⟩] "abc12345" 1 "actor" (some "r") false).db =
      update_suggestion_status [sugg_pending] "abc12345" "approved"
        (some "r") false ∧
    (reject_cmd (some demo_settings) true demo_flags_fail [sugg_pending]
      [⟨"abc12345", 7, "upvote"⟩] "abc12345" 1 "actor" (some "r") false).db =
      update_suggestion_status [sugg_pending] "abc12345" "rejected"
        (some "r") false := by
  have h := c9_render_failure_frame (some demo_settings) true demo_flags_fail
    demo_flags [sugg_pending] [⟨"abc12345", 7, "upvote"⟩] "abc12345" "actor" 1
    (some "r") false
  exact ⟨(h.2.1 (by decide)).1, (h.2.2 (by decide)).1⟩

/-- C4: `get_votes` returns exactly the number of `upvote` rows and the
number of `downvote` rows stored for the suggestion, and `(0, 0)` for a
suggestion with no rows at all; being a total function it never fails. -/
theorem c4_tally_counts (votes : List Vote) (sid : String) :
    (get_votes votes sid).1 =
      votes.countP (fun v => v.suggestion_id == sid && v.vote_type == "upvote") ∧
    (get_votes votes sid).2 =
      votes.countP (fun v => v.suggestion_id == sid && v.vote_type == "downvote") ∧
    (votes.countP (fun v => v.suggestion_id == sid) = 0 →
      get_votes votes sid = (0, 0)) := by
  have h := get_votes_eq_counts votes sid
  refine ⟨by rw [h], by rw [h], ?_⟩
  intro h0
  rw [h]
  rw [List.countP_eq_zero] at h0
  have h1 : votes.countP
      (fun v => v.suggestion_id == sid && v.vote_type == "upvote") = 0 := by
    rw [List.countP_eq_zero]
    intro v hv
    simp only [Bool.and_eq_true, not_and]
    intro hsid
    exact absurd hsid (h0 v hv)
  have h2 : votes.countP
      (fun v => v.suggestion_id == sid && v.vote_type == "downvote") = 0 := by
    rw [List.countP_eq_zero]
    intro v hv
    simp only [Bool.and_eq_true, not_and]
    intro hsid
    exact absurd hsid (h0 v hv)
  rw [h1, h2]

/-- Witness for C4 at a suggestion id with no rows in a nonempty table. -/
theorem c4_witness :
    (get_votes [⟨"abc12345", 7, "upvote"⟩, ⟨"abc12345", 8, "downvote"⟩]
      "zzz99999").1 =
      List.countP (fun v : Vote => v.suggestion_id == "zzz99999" &&
        v.vote_type == "upvote")
        ([⟨"abc12345", 7, "upvote"⟩, ⟨"abc12345", 8, "downvote"⟩] :
          List Vote) ∧
    get_votes [⟨"abc12345", 7, "upvote"⟩, ⟨"abc12345", 8, "downvote"⟩]
      "zzz99999" = (0, 0) := by
  have h := c4_tally_counts
    [⟨"abc12345", 7, "upvote"⟩, ⟨"abc12345", 8, "downvote"⟩] "zzz99999"
  exact ⟨h.1, h.2.2 (by decide)⟩

/-- C7: with no guild-settings row, or a settings row whose suggestion
channel is unset, `on_submit` replies "not set up" and inserts no suggestion
row. -/
theorem c7_submit_not_configured (settings : Option GuildSettings)
    (channel_exists missing_perms publish_ok : Bool) (draw : Nat → Nat)
    (db : List Suggestion) (g uid mid tid : Nat)
    (title description pros cons : String) (image_url : Option String)
    (created_at : String)
    (h : settings = none ∨ ∃ st : GuildSettings, settings = some st ∧
      st.suggestion_channel_id = none) :
    on_submit settings channel_exists missing_perms publish_ok draw db g uid
      mid tid title description pros cons image_url created_at =
      (db, SubmitResult.notConfigured) := by
  rcases h with h | ⟨st, h, hch⟩
  · subst h
    rfl
  · subst h
    simp [on_submit, hch]

/-- Witness for C7 with no settings row at all. -/
theorem c7_witness :
    on_submit none true false true (fun _ => 0) [sugg_pending] 1 2 3 4 "t"
      "d" "p" "c" none "ts" = ([sugg_pending], SubmitResult.notConfigured) :=
  c7_submit_not_configured none true false true (fun _ => 0) [sugg_pending]
    1 2 3 4 "t" "d" "p" "c" none "ts" (Or.inl rfl)

/-- C5 counterexample: when the single `generate_suggestion_id()` draw
collides with an existing suggestion, `on_submit` fails with the generic
creation-error reply and inserts nothing — no second identifier is drawn, so
the claimed retry-on-collision does not happen. -/
theorem c5_counterexample :
    generate_suggestion_id (fun _ => 0) = "aaaaaaaa" ∧
    on_submit (some demo_settings) true false true (fun _ => 0)
      [{ sugg_pending with suggestion_id := "aaaaaaaa" }] 1 2 3 4 "t" "d" "p"
      "c" none "ts" =
      ([{ sugg_pending with suggestion_id := "aaaaaaaa" }],
       SubmitResult.creationError) := by
  exact ⟨by decide, by decide⟩

/-- C5 amended: identifiers are 8 characters drawn from the lowercase
letters and digits (the source draws them with `secrets.choice`), and on an
identifier collision with an existing row the submission fails with the
generic creation error and leaves the table unchanged: there is no retry. -/
theorem c5_amended_id_and_no_retry (draw : Nat → Nat) (st : GuildSettings)
    (chid : Nat) (db : List Suggestion) (g uid mid tid : Nat)
    (title description pros cons : String) (image_url : Option String)
    (created_at : String)
    (hch : st.suggestion_channel_id = some chid)
    (hcol : db.any
      (fun s => s.suggestion_id == generate_suggestion_id draw) = true) :
    (generate_suggestion_id draw).length = 8 ∧
    (∀ c ∈ (generate_suggestion_id draw).toList,
      c ∈ suggestion_alphabet.toList) ∧
    on_submit (some st) true false true draw db g uid mid tid title
      description pros cons image_url created_at =
      (db, SubmitResult.creationError) := by
  have halpha : ∀ k : Nat,
      suggestion_alphabet.toList.getD (k % 36) 'a' ∈
        suggestion_alphabet.toList := by
    intro k
    have hlen : suggestion_alphabet.toList.length = 36 := by decide
    have hlt : k % 36 < suggestion_alphabet.toList.length := by
      rw [hlen]
      exact Nat.mod_lt _ (by decide)
    rw [List.getD_eq_getElem?_getD, List.getElem?_eq_getElem hlt]
    simp only [Option.getD_some]
    exact List.getElem_mem hlt
  refine ⟨?_, ?_, ?_⟩
  · show ((List.range 8).map
      (fun i => suggestion_alphabet.toList.getD (draw i % 36) 'a')).length = 8
    simp
  · intro c hc
    have hc2 : c ∈ (List.range 8).map
        (fun i => suggestion_alphabet.toList.getD (draw i % 36) 'a') := hc
    obtain ⟨i, _, hi⟩ := List.mem_map.mp hc2
    rw [← hi]
    exact halpha (draw i)
  · simp [on_submit, hch, save_suggestion, hcol]

/-- Witness for the amended C5 at a concrete colliding store. -/
theorem c5_witness :
    (generate_suggestion_id (fun _ => 0)).length = 8 ∧
    (∀ c ∈ (generate_suggestion_id (fun _ => 0)).toList,
      c ∈ suggestion_alphabet.toList) ∧
    on_submit (some demo_settings) true false true (fun _ => 0)
      [{ sugg_pending with suggestion_id := "aaaaaaaa" }] 1 2 3 4 "t" "d" "p"
      "c" none "ts" =
      ([{ sugg_pending with suggestion_id := "aaaaaaaa" }],
       SubmitResult.creationError) :=
  c5_amended_id_and_no_retry (fun _ => 0) demo_settings 50
    [{ sugg_pending with suggestion_id := "aaaaaaaa" }] 1 2 3 4 "t" "d" "p"
    "c" none "ts" (by decide) (by decide)

/-- C8: the startup re-attachment query returns precisely the identifiers of
the `pending` suggestions (every pending one, no terminal one, given unique
identifiers) and leaves the stored table untouched. -/
theorem c8_reattach_exactly_pending (db : List Suggestion) (sid : String)
    (hnodup : (db.map (fun s => s.suggestion_id)).Nodup) :
    (on_ready_reattach db).2 = db ∧
    (sid ∈ (on_ready_reattach db).1 ↔
      ∃ s ∈ db, s.suggestion_id = sid ∧ s.status = "pending") ∧
    (∀ s ∈ db, s.status = "approved" ∨ s.status = "rejected" →
      s.suggestion_id ∉ (on_ready_reattach db).1) := by
  refine ⟨rfl, ?_, ?_⟩
  · simp only [on_ready_reattach, reattach_open, List.mem_map, List.mem_filter]
    constructor
    · rintro ⟨s, ⟨hmem, hst⟩, hsid⟩
      exact ⟨s, hmem, hsid, by simpa using hst⟩
    · rintro ⟨s, hmem, hsid, hst⟩
      exact ⟨s, ⟨hmem, by simp [hst]⟩, hsid⟩
  · rintro s hmem hterm hin
    simp only [on_ready_reattach, reattach_open, List.mem_map,
      List.mem_filter] at hin
    obtain ⟨s2, ⟨hmem2, hst2⟩, hsid2⟩ := hin
    have heq : s2 = s := List.inj_on_of_nodup_map hnodup hmem2 hmem hsid2
    subst heq
    rcases hterm with h | h <;> simp [h] at hst2

/-- Witness for C8: the spec's restart scenario — one pending and one
approved suggestion. -/
theorem c8_witness :
    (on_ready_reattach [sugg_pending, sugg_approved]).2 =
      [sugg_pending, sugg_approved] ∧
    ("abc12345" ∈ (on_ready_reattach [sugg_pending, sugg_approved]).1 ↔
      ∃ s ∈ [sugg_pending, sugg_approved], s.suggestion_id = "abc12345" ∧
        s.status = "pending") ∧
    (∀ s ∈ [sugg_pending, sugg_approved],
      s.status = "approved" ∨ s.status = "rejected" →
      s.suggestion_id ∉ (on_ready_reattach [sugg_pending, sugg_approved]).1) :=
  c8_reattach_exactly_pending [sugg_pending, sugg_approved] "abc12345"
    (by decide)
